import Mathlib

/-!
Verification development for the Tour API Gateway core of the repository:
the retrying HTTP client (`fetchTourAPI`), envelope extraction
(`extractItems`), gateway operations (`searchKeyword`, `getDetailPetTour`),
the statistics aggregator (`fetchRegionStatsInternal`,
`fetchTypeStatsInternal`), the filter/query codec (`parseFilterParams`,
`buildFilterQuery`) and the coordinate normalizer (`convertKATECToWGS84`,
`validateCoordinateConversion`).

The embedding is shallow: JavaScript strings whose character-level content
matters (the filter codec) are embedded as `List Char`; strings only
compared for equality (result codes, identifiers) are Lean `String`s;
JS numbers appearing as integer counts/pages are `Nat`/`Int`; the
coordinate arithmetic (division of parsed values by 10,000,000) is taken
over `ℚ` — all raw boundary values and their quotients are exactly
representable in binary64 and IEEE division is monotone and correctly
rounded, so range verdicts over `ℚ` agree with the JS `number` behaviour.
Asynchronous I/O is embedded by passing each attempt's transport outcome
explicitly (`client : Nat → FetchOutcome T` gives the outcome of the
n-th attempt), and thrown exceptions are `Except` values.
-/

/-! ## Retrying HTTP client (src tour-api.ts, `fetchTourAPI`) -/

/-- Upstream envelope header: `{resultCode, resultMsg}`. -/
structure APIResponseHeader where
  resultCode : String
  resultMsg : String
deriving Repr, DecidableEq

/-- The upstream wraps zero items as a missing field, one item as a bare
object, and several as an array: `items?: { item: T | T[] }`. -/
inductive ItemOrArray (T : Type) where
  | single (t : T)
  | array (l : List T)
deriving Repr, DecidableEq

/-- Envelope body: `{items?, numOfRows?, pageNo?, totalCount?}`. -/
structure APIResponseBody (T : Type) where
  items : Option (ItemOrArray T)
  numOfRows : Option Nat
  pageNo : Option Nat
  totalCount : Option Nat
deriving Repr, DecidableEq

/-- The full upstream envelope `{response: {header, body}}` (the outer
`response` wrapper is flattened into the structure). -/
structure APIResponse (T : Type) where
  header : APIResponseHeader
  body : APIResponseBody T
deriving Repr, DecidableEq

/-- Outcome of one transport attempt, as seen by `fetchTourAPI`'s try
block: the timeout fired and aborted the request (`abort`, an
`AbortError`), the fetch itself rejected (`netFail`, a `TypeError`), or a
response was delivered with an HTTP status and (for 2xx) a parsed JSON
body. -/
inductive FetchOutcome (T : Type) where
  | abort
  | netFail
  | http (status : Nat) (resp : APIResponse T)

/-- Typed failure of the client, one constructor per distinguishable
error produced by `fetchTourAPI`: the distinct `TimeoutError` thrown
after the retry budget is exhausted by aborts, the network (`TypeError`)
failure surfaced on the final attempt, the HTTP-status-derived errors,
and the upstream-body-derived errors carrying the upstream result code
(`"01"` missing parameter, `"02"` invalid parameter, `"03"` access
denied, `"04"` quota exceeded, `"05"` service unavailable, others
generic). -/
inductive TourError where
  | timeout
  | network
  | http (status : Nat)
  | upstream (resultCode : String)
  | validation (msg : String)
deriving Repr, DecidableEq

/-- Trace of one `fetchTourAPI` run: its final result, how many attempts
were made (network calls issued), and the backoff waits (ms) performed
between consecutive attempts, in order. -/
structure RunResult (T : Type) where
  result : Except TourError (APIResponse T)
  attempts : Nat
  waits : List Nat

/-- Body of `fetchTourAPI`'s try block for a delivered response: non-2xx
statuses throw an HTTP-status-derived error; a 2xx body whose
`header.resultCode` is not the success code `"0000"` throws an
upstream-code-derived error; otherwise the parsed body is returned. -/
def handleResponse {T : Type} (status : Nat) (resp : APIResponse T) :
    Except TourError (APIResponse T) :=
  if 200 ≤ status ∧ status < 300 then
    if resp.header.resultCode ≠ "0000" then
      Except.error (TourError.upstream resp.header.resultCode)
    else
      Except.ok resp
  else
    Except.error (TourError.http status)

/-- Whether `fetchTourAPI`'s catch block retries the error thrown for a
delivered response. The messages built for HTTP-status errors and for
the recognized upstream codes `"01"`–`"05"` never contain the substring
`"네트워크"`, so such errors are rethrown at once; for an unrecognized
upstream code the message is the upstream `resultMsg`, which is retried
exactly when it mentions `"네트워크"` (the `isNetworkError` substring
test). -/
def responseErrorRetried {T : Type} (status : Nat) (resp : APIResponse T) : Bool :=
  if 200 ≤ status ∧ status < 300 then
    if resp.header.resultCode ∈ (["01", "02", "03", "04", "05"] : List String) then
      false
    else
      ((resp.header.resultMsg.splitOn "네트워크").length ≥ 2 : Bool)
  else
    false

/-- The retry loop of `fetchTourAPI` (`for attempt = 0; attempt <=
retries`): `remaining` is `retries - attempt`.  An aborted (timed-out)
attempt or a transport `TypeError` with budget left waits
`1000 * 2 ^ attempt` ms and retries; an abort on the final attempt is
converted to the distinct `TimeoutError`; a transport failure on the
final attempt propagates as the network error; errors thrown for a
delivered response follow `responseErrorRetried`. -/
def fetchAux {T : Type} (client : Nat → FetchOutcome T) (attempt : Nat) :
    Nat → RunResult T
  | 0 =>
    match client attempt with
    | FetchOutcome.abort => ⟨Except.error TourError.timeout, 1, []⟩
    | FetchOutcome.netFail => ⟨Except.error TourError.network, 1, []⟩
    | FetchOutcome.http status resp => ⟨handleResponse status resp, 1, []⟩
  | remaining + 1 =>
    match client attempt with
    | FetchOutcome.abort =>
      let r := fetchAux client (attempt + 1) remaining
      ⟨r.result, r.attempts + 1, 1000 * 2 ^ attempt :: r.waits⟩
    | FetchOutcome.netFail =>
      let r := fetchAux client (attempt + 1) remaining
      ⟨r.result, r.attempts + 1, 1000 * 2 ^ attempt :: r.waits⟩
    | FetchOutcome.http status resp =>
      match handleResponse status resp with
      | Except.ok resp => ⟨Except.ok resp, 1, []⟩
      | Except.error e =>
        if responseErrorRetried status resp then
          let r := fetchAux client (attempt + 1) remaining
          ⟨r.result, r.attempts + 1, 1000 * 2 ^ attempt :: r.waits⟩
        else
          ⟨Except.error e, 1, []⟩

/-- `fetchTourAPI` with retry budget `retries` (default `MAX_RETRIES = 3`
in the source) run against a client giving the outcome of each attempt. -/
def fetchTourAPI {T : Type} (client : Nat → FetchOutcome T) (retries : Nat) :
    RunResult T :=
  fetchAux client 0 retries

/-! ## Envelope extraction (`extractItems`) -/

/-- `extractItems`: `data.response.body.items?.item`, absent field to
`[]`, a bare single object to a singleton, an array kept as is. -/
def extractItems {T : Type} (data : APIResponse T) : List T :=
  match data.body.items with
  | none => []
  | some (ItemOrArray.single t) => [t]
  | some (ItemOrArray.array l) => l

/-! ## Gateway operations (src tour-api.ts) -/

/-- One point-of-interest row from a listing/search call
(`areaBasedList2`, `searchKeyword2`). -/
structure TourItem where
  addr1 : String
  addr2 : Option String
  areacode : String
  contentid : String
  contenttypeid : String
  title : String
  mapx : String
  mapy : String
  firstimage : Option String
  firstimage2 : Option String
  tel : Option String
  cat1 : Option String
  cat2 : Option String
  cat3 : Option String
  modifiedtime : String
deriving Repr, DecidableEq

/-- Pet-accompanied travel info row (`detailPetTour2`). -/
structure PetTourInfo where
  contentid : String
  contenttypeid : String
  chkpetleash : Option String
  chkpetsize : Option String
  chkpetplace : Option String
  chkpetfee : Option String
  petinfo : Option String
  parking : Option String
deriving Repr, DecidableEq

/-- Parameters of `searchKeyword`. -/
structure SearchParams where
  keyword : String
  areaCode : Option String
  contentTypeId : Option String
  numOfRows : Option Nat
  pageNo : Option Nat

/-- A listing result `{items, totalCount}`. -/
structure ListResult where
  items : List TourItem
  totalCount : Nat
deriving Repr, DecidableEq

/-- JS `String.prototype.trim`: strip leading and trailing whitespace
(embedded over the string's character list). -/
def jsWhitespace (c : Char) : Bool :=
  c = ' ' ∨ c = '\t' ∨ c = '\n' ∨ c = '\r'

/-- JS string trim, stripping `jsWhitespace` from both ends. -/
def jsTrim (s : String) : String :=
  ⟨((s.data.dropWhile jsWhitespace).reverse.dropWhile jsWhitespace).reverse⟩

/-- `searchKeyword`: rejects a missing or whitespace-only keyword
(`!params.keyword || params.keyword.trim() === ""`) before building the
query; otherwise runs the retrying client and normalizes the envelope,
defaulting `totalCount` to 0. The second component counts the network
attempts issued. -/
def searchKeyword (client : Nat → FetchOutcome TourItem) (retries : Nat)
    (params : SearchParams) : Except TourError ListResult × Nat :=
  if params.keyword = "" ∨ jsTrim params.keyword = "" then
    (Except.error (TourError.validation "Keyword is required"), 0)
  else
    let r := fetchTourAPI client retries
    (r.result.map (fun data => ⟨extractItems data, data.body.totalCount.getD 0⟩),
      r.attempts)

/-! ## Claim C6: `getDetailPetTour` never propagates fetch errors -/

/-- `getDetailPetTour`: validates the content id, then returns the first
extracted item, `none` when zero items were reported — and, through its
catch-all, also `none` whenever the underlying `fetchTourAPI` call fails
with any error. -/
def getDetailPetTour (contentId : String)
    (fetchResult : Except TourError (APIResponse PetTourInfo)) :
    Except TourError (Option PetTourInfo) :=
  if contentId = "" then
    Except.error (TourError.validation "ContentId is required")
  else
    match fetchResult with
    | Except.ok data =>
      match extractItems data with
      | [] => Except.ok none
      | item :: _ => Except.ok (some item)
    | Except.error _ => Except.ok none

/-! ## Statistics aggregator (src/lib/api/stats-api.ts) -/

/-- One region code row (`areaCode2`). -/
structure AreaCode where
  code : String
  name : String
  rnum : Nat
deriving Repr, DecidableEq

/-- `{regionCode, regionName, count}` aggregate entity. -/
structure RegionStats where
  regionCode : String
  regionName : String
  count : Nat
deriving Repr, DecidableEq

/-- `{contentTypeId, contentTypeName, count}` aggregate entity. -/
structure TypeStats where
  contentTypeId : String
  contentTypeName : String
  count : Nat
deriving Repr, DecidableEq

/-- Failure of a statistics call: a rethrown gateway error (from the
region-code lookup), or the aggregator's own all-regions-failed error
(`"모든 지역 통계 수집에 실패했습니다."`). -/
inductive StatsError where
  | upstream (e : TourError)
  | allRegionsFailed
deriving Repr, DecidableEq

/-- The fixed 8-entry content-type enumeration. -/
def CONTENT_TYPE_IDS : List String :=
  ["12", "14", "15", "25", "28", "32", "38", "39"]

/-- `getContentTypeName`: `CONTENT_TYPE_MAP[contentTypeId] || "기타"`. -/
def getContentTypeName (contentTypeId : String) : String :=
  if contentTypeId = "12" then "관광지"
  else if contentTypeId = "14" then "문화시설"
  else if contentTypeId = "15" then "축제/행사"
  else if contentTypeId = "25" then "여행코스"
  else if contentTypeId = "28" then "레포츠"
  else if contentTypeId = "32" then "숙박"
  else if contentTypeId = "38" then "쇼핑"
  else if contentTypeId = "39" then "음식점"
  else "기타"

/-- The JS comparator `(a, b) => b.count - a.count` keeps `a` before `b`
exactly when `b.count ≤ a.count` (descending by count, stable). -/
def countDescR (a b : RegionStats) : Bool := b.count ≤ a.count

/-- Descending-by-count comparator for type stats. -/
def countDescT (a b : TypeStats) : Bool := b.count ≤ a.count

/-- `fetchRegionStatsInternal`: look up the region list (rethrowing its
failure), return `[]` for an empty list, probe each region in parallel
with per-probe failure isolation (a failed probe contributes nothing),
throw the all-regions-failed error when no probe succeeded, and
otherwise sort the collected entries by count descending. The region
probe returns the upstream-reported `totalCount` of the minimal
one-row `getAreaBasedList` call. -/
def fetchRegionStatsInternal
    (areaResult : Except TourError (List AreaCode))
    (probe : AreaCode → Except TourError Nat) :
    Except StatsError (List RegionStats) :=
  match areaResult with
  | Except.error e => Except.error (StatsError.upstream e)
  | Except.ok areas =>
    if areas.length = 0 then Except.ok []
    else
      let regionStats := areas.filterMap (fun area =>
        match probe area with
        | Except.ok totalCount => some ⟨area.code, area.name, totalCount⟩
        | Except.error _ => none)
      if regionStats.length = 0 then Except.error StatsError.allRegionsFailed
      else Except.ok (regionStats.mergeSort countDescR)

/-- `fetchTypeStatsInternal`: probe each of the 8 content types in
parallel with per-probe failure isolation and sort the collected entries
by count descending. Unlike the region variant, the source has no
all-probes-failed check here: an all-failed run returns the empty
array. -/
def fetchTypeStatsInternal (probe : String → Except TourError Nat) :
    Except StatsError (List TypeStats) :=
  let typeStats := CONTENT_TYPE_IDS.filterMap (fun contentTypeId =>
    match probe contentTypeId with
    | Except.ok totalCount =>
      some ⟨contentTypeId, getContentTypeName contentTypeId, totalCount⟩
    | Except.error _ => none)
  Except.ok (typeStats.mergeSort countDescT)

/-- Demonstration region list for the C3 witness. -/
def demoAreas : List AreaCode := [⟨"1", "서울", 1⟩, ⟨"2", "부산", 2⟩]

/-- Demonstration region probe failing exactly on region `"1"`. -/
def demoRegionProbe : AreaCode → Except TourError Nat := fun a =>
  if a.code = "1" then Except.error TourError.timeout else Except.ok 10

/-- Demonstration type probe succeeding exactly on type `"12"`. -/
def demoTypeProbe : String → Except TourError Nat := fun t =>
  if t = "12" then Except.ok 5 else Except.error TourError.timeout

/-! ## Coordinate normalizer (src tour.ts `convertKATECToWGS84`,
src naver-map-metrics.ts `validateCoordinateConversion`)

A raw coordinate string is abstracted by what `parseFloat` and the JS
truthiness test see of it: the empty string, a non-numeric string
(`parseFloat` gives `NaN`), or a numeric string with parsed value `q`.
The parsed values and the division by 10,000,000 are taken over `ℚ`;
every range boundary used below (1.24e9, 1.32e9, 3.3e8, 4.3e8 and their
quotients 124, 132, 33, 43) is exactly representable in binary64 and
IEEE division is monotone and correctly rounded, so the range verdicts
agree with the JS `number` computation. -/

/-- A raw coordinate string as seen by `parseFloat`/truthiness. -/
inductive RawCoord where
  | empty
  | nonNumeric
  | num (q : ℚ)
deriving DecidableEq

/-- `parseFloat`: `NaN` (`none`) on empty or non-numeric input. -/
def parseFloatModel : RawCoord → Option ℚ
  | RawCoord.empty => none
  | RawCoord.nonNumeric => none
  | RawCoord.num q => some q

/-- `convertKATECToWGS84`: divide each parsed value by 10,000,000
(`none` standing for the IEEE `NaN` produced on unparsable input). -/
def convertKATECToWGS84 (mapx mapy : RawCoord) : Option ℚ × Option ℚ :=
  ((parseFloatModel mapx).map (fun q => q / 10000000),
   (parseFloatModel mapy).map (fun q => q / 10000000))

/-- The four distinct reportable failure reasons of
`validateCoordinateConversion` (its `errors` strings, tagged). -/
inductive CoordError where
  | emptyInput
  | notNumeric
  | rawLngRange
  | rawLatRange
  | convLngRange
  | convLatRange
deriving Repr, DecidableEq

/-- Result of `validateCoordinateConversion`:
`{lng, lat, isValid, errors}`. -/
structure CoordValidation where
  lng : ℚ
  lat : ℚ
  isValid : Bool
  errors : List CoordError
deriving DecidableEq

/-- `validateCoordinateConversion`: reject empty input, then
non-numeric input, then collect raw-range errors (raw longitude outside
[1,240,000,000, 1,320,000,000], raw latitude outside
[330,000,000, 430,000,000]) and converted-range errors (longitude
outside [124, 132], latitude outside [33, 43]); the result is valid
exactly when no error was collected. -/
def validateCoordinateConversion (mapx mapy : RawCoord) : CoordValidation :=
  if mapx = RawCoord.empty ∨ mapy = RawCoord.empty then
    ⟨0, 0, false, [CoordError.emptyInput]⟩
  else
    match parseFloatModel mapx, parseFloatModel mapy with
    | none, _ => ⟨0, 0, false, [CoordError.notNumeric]⟩
    | some _, none => ⟨0, 0, false, [CoordError.notNumeric]⟩
    | some x, some y =>
      let e1 := if x < 1240000000 ∨ x > 1320000000
        then [CoordError.rawLngRange] else []
      let e2 := if y < 330000000 ∨ y > 430000000
        then [CoordError.rawLatRange] else []
      let lng := x / 10000000
      let lat := y / 10000000
      let e3 := if lng < 124 ∨ lng > 132 then [CoordError.convLngRange] else []
      let e4 := if lat < 33 ∨ lat > 43 then [CoordError.convLatRange] else []
      let errs := e1 ++ e2 ++ e3 ++ e4
      ⟨lng, lat, errs.isEmpty, errs⟩

/-! ## Filter/query codec (src filter.ts)

JS strings are embedded character-exactly as `List Char` here, since the
codec splits, joins and parses string content. `strL` turns a Lean
string literal into that representation. -/

/-- Character list of a string literal. -/
def strL (s : String) : List Char := s.data

/-- A query-parameter value as Next.js delivers it:
`string | string[]` (an array when the key is repeated in the URL). -/
inductive StrOrList where
  | str (s : List Char)
  | list (l : List (List Char))
deriving Repr, DecidableEq

/-- `String.prototype.split(sep)` for a one-character separator (always
returns at least one piece; the empty string yields `[""]`). -/
def splitSep (sep : Char) : List Char → List (List Char)
  | [] => [[]]
  | c :: rest =>
    if c = sep then [] :: splitSep sep rest
    else
      match splitSep sep rest with
      | s :: ss => (c :: s) :: ss
      | [] => [[c]]

/-- `Array.prototype.join(sep)` for a one-character separator. -/
def joinSep (sep : Char) : List (List Char) → List Char
  | [] => []
  | [s] => s
  | s :: rest => s ++ sep :: joinSep sep rest

/-- The decimal digit character for a value below 10. -/
def digitChar : Nat → Char
  | 0 => '0'
  | 1 => '1'
  | 2 => '2'
  | 3 => '3'
  | 4 => '4'
  | 5 => '5'
  | 6 => '6'
  | 7 => '7'
  | 8 => '8'
  | 9 => '9'
  | _ => '*'

/-- Numeric value of a digit character. -/
def digitVal (c : Char) : Nat := c.toNat - '0'.toNat

/-- Little-endian decimal digits of a positive number; the first
argument is recursion fuel (any bound on the digit count works, and the
number itself is such a bound). -/
def decDigitsAux : Nat → Nat → List Char
  | 0, _ => []
  | fuel + 1, n =>
    if n = 0 then [] else digitChar (n % 10) :: decDigitsAux fuel (n / 10)

/-- Decimal representation of a natural number (JS `String(n)`). -/
def natToDec (n : Nat) : List Char :=
  if n = 0 then ['0'] else (decDigitsAux n n).reverse

/-- JS `String(n)` for an integer. -/
def jsIntToStr (n : Int) : List Char :=
  if n < 0 then '-' :: natToDec (-n).toNat else natToDec n.toNat

/-- The numeric value of the leading run of digit characters, `none`
when there is no leading digit. -/
def parseDigits (s : List Char) : Option Nat :=
  let ds := s.takeWhile Char.isDigit
  if ds = [] then none
  else some (ds.foldl (fun acc c => 10 * acc + digitVal c) 0)

/-- JS `parseInt(s, 10)`: skip leading whitespace, read an optional
sign, then the longest digit prefix; `NaN` (`none`) when no digit
follows. -/
def jsParseInt (s : List Char) : Option Int :=
  let t := s.dropWhile jsWhitespace
  match t with
  | [] => none
  | c :: rest =>
    if c = '-' then (parseDigits rest).map (fun n => -(n : Int))
    else if c = '+' then (parseDigits rest).map (fun n => (n : Int))
    else (parseDigits t).map (fun n => (n : Int))

/-- The filter-related URL query parameters as Next.js hands them to
`parseFilterParams` (`{[key]: string | string[] | undefined}`), one
field per key the codec reads or writes. -/
structure SearchParamsObj where
  keyword : Option (List Char)
  areaCode : Option (List Char)
  contentTypeId : Option StrOrList
  petFriendly : Option (List Char)
  petSize : Option (List Char)
  sort : Option (List Char)
  page : Option (List Char)
deriving Repr, DecidableEq

/-- `FilterParams`: `{keyword?, areaCode?, contentTypeId?: string |
string[], petFriendly?: boolean, petSize?, sort?, page?: number}`. -/
structure FilterParams where
  keyword : Option (List Char)
  areaCode : Option (List Char)
  contentTypeId : Option StrOrList
  petFriendly : Option Bool
  petSize : Option (List Char)
  sort : Option (List Char)
  page : Option Int
deriving Repr, DecidableEq

/-- `parseFilterParams`: pass `keyword`/`areaCode`/`petSize` through,
keep an array `contentTypeId` and split a non-empty string one on
commas, turn `petFriendly === "true"` into a flag (`false` becomes
`undefined`), default `sort` to `"latest"` when absent or empty, and
parse `page` with `Math.max(1, parseInt(page, 10)) || undefined`
(absent, empty or non-numeric pages stay `undefined`; numeric pages are
clamped to at least 1). -/
def parseFilterParams (sp : SearchParamsObj) : FilterParams where
  keyword := sp.keyword
  areaCode := sp.areaCode
  contentTypeId :=
    match sp.contentTypeId with
    | some (StrOrList.list l) => some (StrOrList.list l)
    | some (StrOrList.str s) =>
      if s = [] then none else some (StrOrList.list (splitSep ',' s))
    | none => none
  petFriendly := if sp.petFriendly = some (strL "true") then some true else none
  petSize := sp.petSize
  sort := some (match sp.sort with
    | some s => if s = [] then strL "latest" else s
    | none => strL "latest")
  page :=
    match sp.page with
    | none => none
    | some s =>
      if s = [] then none
      else
        match jsParseInt s with
        | none => none
        | some n => some (max 1 n)

/-- `buildFilterQuery`: set each parameter only when its value is
truthy, join an array `contentTypeId` with commas (a bare string stands
for a one-element array), write `petFriendly` only when `true`, skip
the default `sort` value `"latest"`, and write `page` only when greater
than 1. -/
def buildFilterQuery (params : FilterParams) : SearchParamsObj where
  keyword :=
    match params.keyword with
    | some s => if s = [] then none else some s
    | none => none
  areaCode :=
    match params.areaCode with
    | some s => if s = [] then none else some s
    | none => none
  contentTypeId :=
    match params.contentTypeId with
    | none => none
    | some (StrOrList.str s) => if s = [] then none else some (StrOrList.str s)
    | some (StrOrList.list l) => some (StrOrList.str (joinSep ',' l))
  petFriendly :=
    if params.petFriendly = some true then some (strL "true") else none
  petSize :=
    match params.petSize with
    | some s => if s = [] then none else some s
    | none => none
  sort :=
    match params.sort with
    | some s =>
      if s = [] then none else if s = strL "latest" then none else some s
    | none => none
  page :=
    match params.page with
    | some n => if 1 < n then some (jsIntToStr n) else none
    | none => none

/-- The `key=value` entries a `URLSearchParams` holds for a query
object, in the order `buildFilterQuery` sets them. -/
def queryEntries (q : SearchParamsObj) : List (List Char × List Char) :=
  (match q.keyword with
    | some s => [(strL "keyword", s)]
    | none => []) ++
  (match q.areaCode with
    | some s => [(strL "areaCode", s)]
    | none => []) ++
  (match q.contentTypeId with
    | some (StrOrList.str s) => [(strL "contentTypeId", s)]
    | some (StrOrList.list l) => [(strL "contentTypeId", joinSep ',' l)]
    | none => []) ++
  (match q.petFriendly with
    | some s => [(strL "petFriendly", s)]
    | none => []) ++
  (match q.petSize with
    | some s => [(strL "petSize", s)]
    | none => []) ++
  (match q.sort with
    | some s => [(strL "sort", s)]
    | none => []) ++
  (match q.page with
    | some s => [(strL "page", s)]
    | none => [])

/-- The serialized query string `URLSearchParams.toString()` of
`buildFilterQuery` (percent-encoding left implicit: it is injective and
empty-preserving, so it does not affect the properties below). -/
def buildFilterQueryString (params : FilterParams) : List Char :=
  joinSep '&'
    ((queryEntries (buildFilterQuery params)).map (fun kv => kv.1 ++ '=' :: kv.2))

/-- Value of a little-endian digit list. -/
def decValue : List Char → Nat
  | [] => 0
  | c :: cs => digitVal c + 10 * decValue cs

/-! ## Claim C5: filter codec inverse law -/

/-- A filter state with every field at a non-default value, whose
category filter is given in the bare-string form the `FilterParams` type
admits. -/
def cexFilterState : FilterParams :=
  ⟨some (strL "beach"), some (strL "1"), some (StrOrList.str (strL "12")),
    some true, some (strL "small"), some (strL "name"), some 2⟩

/-! ## Claim C1: retry ceiling on all-timeouts -/

theorem fetchAux_all_abort {T : Type} (client : Nat → FetchOutcome T)
    (a : Nat) (r : Nat) (h : ∀ i, client i = FetchOutcome.abort) :
    fetchAux client a r =
      ⟨Except.error TourError.timeout, r + 1,
        (List.range r).map (fun i => 1000 * 2 ^ (a + i))⟩ := by
  induction r generalizing a with
  | zero => simp [fetchAux, h a]
  | succ n ih =>
    rw [List.range_succ_eq_map]
    simp only [fetchAux, h a, ih (a + 1)]
    congr 1
    simp only [List.map_cons, List.map_map, Nat.add_zero]
    congr 1
    apply List.map_congr_left
    intro i _
    have hadd : a + 1 + i = a + Nat.succ i := by omega
    simp [Function.comp, hadd]

/-- C1: if every attempt of a `fetchTourAPI` call times out (is aborted),
exactly `retries + 1` attempts are made, the waits between consecutive
attempts are `1000 * 2 ^ attempt` ms (so 1s, 2s, 4s for the default
budget of 3), and the call fails with the distinct `timeout` error kind,
not the generic `network` one. -/
theorem fetchTourAPI_timeout_ceiling {T : Type}
    (client : Nat → FetchOutcome T) (retries : Nat)
    (h : ∀ i, client i = FetchOutcome.abort) :
    (fetchTourAPI client retries).result = Except.error TourError.timeout ∧
    (fetchTourAPI client retries).attempts = retries + 1 ∧
    (fetchTourAPI client retries).waits =
      (List.range retries).map (fun i => 1000 * 2 ^ i) ∧
    (fetchTourAPI client retries).result ≠ Except.error TourError.network := by
  have := fetchAux_all_abort client 0 retries h
  unfold fetchTourAPI
  rw [this]
  refine ⟨rfl, rfl, by simp, by simp⟩

/-- C1 witness: a client that always times out, with the default budget
of 3 retries, makes 4 attempts, waits 1s, 2s, 4s, and fails with
`timeout`. -/
theorem fetchTourAPI_timeout_ceiling_witness :
    (fetchTourAPI (T := Unit) (fun _ => FetchOutcome.abort) 3).result =
      Except.error TourError.timeout ∧
    (fetchTourAPI (T := Unit) (fun _ => FetchOutcome.abort) 3).attempts = 4 ∧
    (fetchTourAPI (T := Unit) (fun _ => FetchOutcome.abort) 3).waits =
      [1000, 2000, 4000] := by
  have h := fetchTourAPI_timeout_ceiling (T := Unit)
    (fun _ => FetchOutcome.abort) 3 (fun i => rfl)
  refine ⟨h.1, h.2.1, ?_⟩
  rw [h.2.2.1]
  rfl

/-! ## Claim C2: terminal upstream codes are never retried -/

/-- C2: if the first attempt delivers an HTTP 2xx response whose upstream
`header.resultCode` is one of the recognized terminal codes
(`"01"`–`"05"`, e.g. the quota-exceeded code `"04"`), `fetchTourAPI`
makes exactly 1 attempt, performs no backoff waits, and surfaces the
upstream-code-derived error at once, for every remaining retry budget. -/
theorem fetchTourAPI_terminal_upstream {T : Type}
    (client : Nat → FetchOutcome T) (retries status : Nat)
    (resp : APIResponse T)
    (hc : client 0 = FetchOutcome.http status resp)
    (hs : 200 ≤ status ∧ status < 300)
    (hcode : resp.header.resultCode ∈ (["01", "02", "03", "04", "05"] : List String)) :
    fetchTourAPI client retries =
      ⟨Except.error (TourError.upstream resp.header.resultCode), 1, []⟩ := by
  have hne : resp.header.resultCode ≠ "0000" := by
    simp only [List.mem_cons, List.not_mem_nil, or_false] at hcode
    rcases hcode with h | h | h | h | h <;> rw [h] <;> decide
  have hh : handleResponse status resp =
      Except.error (TourError.upstream resp.header.resultCode) := by
    unfold handleResponse
    rw [if_pos hs, if_pos hne]
  have hr : responseErrorRetried status resp = false := by
    unfold responseErrorRetried
    rw [if_pos hs, if_pos hcode]
  cases retries with
  | zero =>
    unfold fetchTourAPI fetchAux
    rw [hc]
    simp [hh]
  | succ n =>
    unfold fetchTourAPI fetchAux
    rw [hc]
    simp [hh, hr]

/-- C2 witness: a quota-exceeded (`"04"`) body on the first attempt with
a full budget of 3 retries yields exactly 1 attempt, no waits, and the
upstream quota error. -/
theorem fetchTourAPI_terminal_upstream_witness :
    fetchTourAPI (T := Unit)
        (fun _ => FetchOutcome.http 200 ⟨⟨"04", "quota"⟩, ⟨none, none, none, none⟩⟩) 3 =
      ⟨Except.error (TourError.upstream "04"), 1, []⟩ := by
  have h := fetchTourAPI_terminal_upstream (T := Unit)
    (fun _ => FetchOutcome.http 200 ⟨⟨"04", "quota"⟩, ⟨none, none, none, none⟩⟩)
    3 200 ⟨⟨"04", "quota"⟩, ⟨none, none, none, none⟩⟩ rfl (by decide) (by decide)
  exact h

/-! ## Claim C4: envelope normalization -/

/-- C4: `extractItems` is a total function on every upstream body shape —
items field absent yields `[]` (length 0), a bare single object yields a
singleton (length 1), and an array of `N` elements is returned as is
(length `N`); in particular the single-object shape cannot throw, since
the normalization is a total match. -/
theorem extractItems_normalizes {T : Type} (hd : APIResponseHeader)
    (n p tc : Option Nat) (t : T) (l : List T) :
    extractItems (T := T) ⟨hd, ⟨none, n, p, tc⟩⟩ = [] ∧
    (extractItems (T := T) ⟨hd, ⟨none, n, p, tc⟩⟩).length = 0 ∧
    extractItems ⟨hd, ⟨some (ItemOrArray.single t), n, p, tc⟩⟩ = [t] ∧
    (extractItems ⟨hd, ⟨some (ItemOrArray.single t), n, p, tc⟩⟩).length = 1 ∧
    extractItems ⟨hd, ⟨some (ItemOrArray.array l), n, p, tc⟩⟩ = l ∧
    (extractItems ⟨hd, ⟨some (ItemOrArray.array l), n, p, tc⟩⟩).length = l.length :=
  ⟨rfl, rfl, rfl, rfl, rfl, rfl⟩

/-! ## Claim C7: keyword validation short-circuit -/

/-- C7: for every keyword that is empty or whitespace-only (its trim is
empty), `searchKeyword` rejects with the validation error and the
transport layer is invoked zero times, whatever the client and budget. -/
theorem searchKeyword_blank_short_circuit
    (client : Nat → FetchOutcome TourItem) (retries : Nat)
    (params : SearchParams) (h : jsTrim params.keyword = "") :
    searchKeyword client retries params =
      (Except.error (TourError.validation "Keyword is required"), 0) := by
  unfold searchKeyword
  rw [if_pos (Or.inr h)]

/-- C7 witness: the three-space keyword is rejected with zero transport
invocations. -/
theorem searchKeyword_blank_short_circuit_witness :
    searchKeyword (fun _ => FetchOutcome.abort) 3
        ⟨"   ", none, none, none, none⟩ =
      (Except.error (TourError.validation "Keyword is required"), 0) :=
  searchKeyword_blank_short_circuit (fun _ => FetchOutcome.abort) 3
    ⟨"   ", none, none, none, none⟩ (by decide)

/-- C6 counterexample: the underlying call fails with the timeout error,
yet `getDetailPetTour` returns `null` (`Except.ok none`) instead of
propagating the typed error — refuting the claim that every failure
other than "zero items" reaches the caller. -/
theorem getDetailPetTour_swallows_timeout :
    getDetailPetTour "12345" (Except.error TourError.timeout) =
      Except.ok none := rfl

/-- C6 amended: for a non-empty content id, `getDetailPetTour` never
fails — it returns some value, and that value is `null` exactly when the
underlying call failed (with any error) or the upstream reported zero
items. -/
theorem getDetailPetTour_null_characterization (contentId : String)
    (h : contentId ≠ "")
    (r : Except TourError (APIResponse PetTourInfo)) :
    (∃ v, getDetailPetTour contentId r = Except.ok v) ∧
    (getDetailPetTour contentId r = Except.ok none ↔
      (∃ e, r = Except.error e) ∨
      (∃ d, r = Except.ok d ∧ extractItems d = [])) := by
  unfold getDetailPetTour
  rw [if_neg h]
  cases r with
  | error e =>
    refine ⟨⟨none, rfl⟩, ?_⟩
    simp
  | ok data =>
    cases hx : extractItems data with
    | nil =>
      refine ⟨⟨none, by simp [hx]⟩, ?_⟩
      simp [hx]
    | cons item rest =>
      refine ⟨⟨some item, by simp [hx]⟩, ?_⟩
      simp [hx]

/-- C6 witness (amended claim at a concrete input): a network failure is
swallowed into a successful `null` result. -/
theorem getDetailPetTour_null_characterization_witness :
    ∃ v, getDetailPetTour "123" (Except.error TourError.network) =
      Except.ok v :=
  (getDetailPetTour_null_characterization "123" (by decide)
    (Except.error TourError.network)).1

theorem filterMap_length_add_countP_none {α β : Type} (f : α → Option β)
    (l : List α) :
    (l.filterMap f).length + l.countP (fun a => (f a).isNone) = l.length := by
  induction l with
  | nil => rfl
  | cons a t ih =>
    cases hfa : f a with
    | none =>
      simp [List.filterMap_cons, List.countP_cons, hfa]
      omega
    | some b =>
      simp [List.filterMap_cons, List.countP_cons, hfa]
      omega

/-! ## Claim C10: empty region list and the all-failed error -/

/-- C10: when the region-code lookup succeeds with an empty region list,
the region-stats aggregation returns the empty array without any error;
and whenever it raises its all-probes-failed error, at least one region
was listed and every per-region probe failed. -/
theorem regionStats_empty_and_failure_condition
    (probe : AreaCode → Except TourError Nat) :
    fetchRegionStatsInternal (Except.ok []) probe = Except.ok [] ∧
    ∀ areas, fetchRegionStatsInternal (Except.ok areas) probe =
        Except.error StatsError.allRegionsFailed →
      areas ≠ [] ∧ ∀ a ∈ areas, ∃ e, probe a = Except.error e := by
  constructor
  · rfl
  · intro areas hfail
    simp only [fetchRegionStatsInternal] at hfail
    split at hfail
    · exact absurd hfail (by simp)
    · rename_i hlen
      split at hfail
      · rename_i hfm
        refine ⟨fun h0 => hlen (by rw [h0]; rfl), fun a ha => ?_⟩
        have hnone := List.filterMap_eq_nil_iff.mp (List.length_eq_zero.mp hfm) a ha
        cases hp : probe a with
        | ok n => rw [hp] at hnone; simp at hnone
        | error e => exact ⟨e, rfl⟩
      · exact absurd hfail (by simp)

/-- C10 witness: an empty region list yields the empty array, and the
all-failed error raised for a singleton region list with an all-failing
probe indeed implies that list is non-empty. -/
theorem regionStats_empty_and_failure_condition_witness :
    fetchRegionStatsInternal (Except.ok [])
        (fun _ => Except.error TourError.timeout) = Except.ok [] ∧
    ([⟨"1", "서울", 1⟩] : List AreaCode) ≠ [] := by
  have h := regionStats_empty_and_failure_condition
    (fun _ => Except.error TourError.timeout)
  exact ⟨h.1, (h.2 [⟨"1", "서울", 1⟩] rfl).1⟩

/-! ## Claim C3: partial-failure aggregation -/

/-- C3 counterexample: a type-stats run in which all 8 probes fail
returns the empty array `Except.ok []` instead of failing with the
aggregate error — the all-probes-failed check exists only in the region
variant, refuting the claim's "likewise the type-stats aggregation". -/
theorem typeStats_all_failed_returns_empty :
    fetchTypeStatsInternal (fun _ => Except.error TourError.timeout) =
      Except.ok [] := by
  simp [fetchTypeStatsInternal, CONTENT_TYPE_IDS]

/-- C3 amended: for the region-stats aggregation over N listed regions
with k failing probes, k < N yields exactly N − k entries sorted
descending by count and k = N raises the all-regions-failed error; the
type-stats aggregation likewise returns the N − k sorted successes for
k < N, but for k = N it returns the empty array without raising any
error. -/
theorem statsPartialFailure (areas : List AreaCode)
    (probeR : AreaCode → Except TourError Nat)
    (probeT : String → Except TourError Nat) (hne : areas ≠ []) :
    (areas.countP (fun a => !(probeR a).isOk) < areas.length →
      ∃ l, fetchRegionStatsInternal (Except.ok areas) probeR = Except.ok l ∧
        l.length =
          areas.length - areas.countP (fun a => !(probeR a).isOk) ∧
        l.Pairwise (fun a b => b.count ≤ a.count)) ∧
    (areas.countP (fun a => !(probeR a).isOk) = areas.length →
      fetchRegionStatsInternal (Except.ok areas) probeR =
        Except.error StatsError.allRegionsFailed) ∧
    (CONTENT_TYPE_IDS.countP (fun t => !(probeT t).isOk) <
        CONTENT_TYPE_IDS.length →
      ∃ l, fetchTypeStatsInternal probeT = Except.ok l ∧
        l.length = CONTENT_TYPE_IDS.length -
          CONTENT_TYPE_IDS.countP (fun t => !(probeT t).isOk) ∧
        l.Pairwise (fun a b => b.count ≤ a.count)) ∧
    (CONTENT_TYPE_IDS.countP (fun t => !(probeT t).isOk) =
        CONTENT_TYPE_IDS.length →
      fetchTypeStatsInternal probeT = Except.ok []) := by
  have hlen0 : ¬ areas.length = 0 := fun h => hne (List.length_eq_zero.mp h)
  have hcongR : areas.countP (fun a =>
        (match probeR a with
          | Except.ok totalCount =>
            some (⟨a.code, a.name, totalCount⟩ : RegionStats)
          | Except.error _ => none).isNone) =
      areas.countP (fun a => !(probeR a).isOk) := by
    apply List.countP_congr
    intro x _
    cases hpx : probeR x <;> simp [Except.isOk, Except.toBool]
  have hfmR := filterMap_length_add_countP_none (fun a =>
    match probeR a with
    | Except.ok totalCount =>
      some (⟨a.code, a.name, totalCount⟩ : RegionStats)
    | Except.error _ => none) areas
  rw [hcongR] at hfmR
  have hcongT : CONTENT_TYPE_IDS.countP (fun t =>
        (match probeT t with
          | Except.ok totalCount =>
            some (⟨t, getContentTypeName t, totalCount⟩ : TypeStats)
          | Except.error _ => none).isNone) =
      CONTENT_TYPE_IDS.countP (fun t => !(probeT t).isOk) := by
    apply List.countP_congr
    intro x _
    cases hpx : probeT x <;> simp [Except.isOk, Except.toBool]
  have hfmT := filterMap_length_add_countP_none (fun t =>
    match probeT t with
    | Except.ok totalCount =>
      some (⟨t, getContentTypeName t, totalCount⟩ : TypeStats)
    | Except.error _ => none) CONTENT_TYPE_IDS
  rw [hcongT] at hfmT
  have htransR : ∀ a b c : RegionStats, countDescR a b = true →
      countDescR b c = true → countDescR a c = true := by
    intro a b c
    simp [countDescR]
    omega
  have htotalR : ∀ a b : RegionStats,
      (countDescR a b || countDescR b a) = true := by
    intro a b
    simp [countDescR]
    omega
  have htransT : ∀ a b c : TypeStats, countDescT a b = true →
      countDescT b c = true → countDescT a c = true := by
    intro a b c
    simp [countDescT]
    omega
  have htotalT : ∀ a b : TypeStats,
      (countDescT a b || countDescT b a) = true := by
    intro a b
    simp [countDescT]
    omega
  refine ⟨?_, ?_, ?_, ?_⟩
  · intro hk
    simp only [fetchRegionStatsInternal, if_neg hlen0]
    rw [if_neg (by omega)]
    refine ⟨_, rfl, ?_, ?_⟩
    · rw [List.length_mergeSort]
      omega
    · have hs := List.sorted_mergeSort htransR htotalR
        (areas.filterMap (fun a =>
          match probeR a with
          | Except.ok totalCount =>
            some (⟨a.code, a.name, totalCount⟩ : RegionStats)
          | Except.error _ => none))
      exact hs.imp (by intro a b hab; simpa [countDescR] using hab)
  · intro hk
    simp only [fetchRegionStatsInternal, if_neg hlen0]
    rw [if_pos (by omega)]
  · intro hk
    simp only [fetchTypeStatsInternal]
    refine ⟨_, rfl, ?_, ?_⟩
    · rw [List.length_mergeSort]
      omega
    · have hs := List.sorted_mergeSort htransT htotalT
        (CONTENT_TYPE_IDS.filterMap (fun t =>
          match probeT t with
          | Except.ok totalCount =>
            some (⟨t, getContentTypeName t, totalCount⟩ : TypeStats)
          | Except.error _ => none))
      exact hs.imp (by intro a b hab; simpa [countDescT] using hab)
  · intro hk
    have hempty : CONTENT_TYPE_IDS.filterMap (fun t =>
        match probeT t with
        | Except.ok totalCount =>
          some (⟨t, getContentTypeName t, totalCount⟩ : TypeStats)
        | Except.error _ => none) = [] := by
      apply List.length_eq_zero.mp
      omega
    simp only [fetchTypeStatsInternal, hempty]
    simp

/-- C3 witness: two regions with one failing probe give one sorted entry;
eight types with seven failing probes give one sorted entry. -/
theorem statsPartialFailure_witness :
    (∃ l, fetchRegionStatsInternal (Except.ok demoAreas) demoRegionProbe =
        Except.ok l ∧ l.length = 1 ∧
        l.Pairwise (fun a b => b.count ≤ a.count)) ∧
    (∃ l, fetchTypeStatsInternal demoTypeProbe = Except.ok l ∧
        l.length = 1 ∧ l.Pairwise (fun a b => b.count ≤ a.count)) := by
  have h := statsPartialFailure demoAreas demoRegionProbe demoTypeProbe
    (by decide)
  constructor
  · obtain ⟨l, hl, hlen, hsort⟩ := h.1 (by decide)
    exact ⟨l, hl, by rw [hlen]; decide, hsort⟩
  · obtain ⟨l, hl, hlen, hsort⟩ := h.2.2.1 (by decide)
    exact ⟨l, hl, by rw [hlen]; decide, hsort⟩

/-! ## Claim C8: coordinate round-trip bounds -/

/-- C8: raw numeric values inside the Korean-peninsula raw ranges
convert to longitude in [124, 132] and latitude in [33, 43]; and for
numeric inputs with either value outside its raw range, the validating
variant reports `isValid = false` with a range-specific error among its
errors. -/
theorem coordinate_roundtrip_bounds (x y : ℚ)
    (hx : 1240000000 ≤ x ∧ x ≤ 1320000000)
    (hy : 330000000 ≤ y ∧ y ≤ 430000000) :
    (convertKATECToWGS84 (RawCoord.num x) (RawCoord.num y) =
      (some (x / 10000000), some (y / 10000000)) ∧
     124 ≤ x / 10000000 ∧ x / 10000000 ≤ 132 ∧
     33 ≤ y / 10000000 ∧ y / 10000000 ≤ 43) ∧
    ∀ u v : ℚ,
      (u < 1240000000 ∨ u > 1320000000 ∨ v < 330000000 ∨ v > 430000000) →
      (validateCoordinateConversion (RawCoord.num u)
          (RawCoord.num v)).isValid = false ∧
      (CoordError.rawLngRange ∈
          (validateCoordinateConversion (RawCoord.num u)
            (RawCoord.num v)).errors ∨
       CoordError.rawLatRange ∈
          (validateCoordinateConversion (RawCoord.num u)
            (RawCoord.num v)).errors) := by
  have h7 : (0 : ℚ) < 10000000 := by norm_num
  constructor
  · refine ⟨rfl, ?_, ?_, ?_, ?_⟩
    · rw [le_div_iff₀ h7]
      linarith [hx.1]
    · rw [div_le_iff₀ h7]
      linarith [hx.2]
    · rw [le_div_iff₀ h7]
      linarith [hy.1]
    · rw [div_le_iff₀ h7]
      linarith [hy.2]
  · intro u v hout
    have hrawX : (u < 1240000000 ∨ u > 1320000000) ∨
        (v < 330000000 ∨ v > 430000000) := by tauto
    simp only [validateCoordinateConversion, parseFloatModel]
    rw [if_neg (by simp)]
    cases hrawX with
    | inl hu =>
      rw [if_pos hu]
      constructor
      · simp [List.isEmpty]
      · left
        simp
    | inr hv =>
      rw [if_pos hv]
      constructor
      · rcases (em (u < 1240000000 ∨ u > 1320000000)) with he | he
        · rw [if_pos he]
          simp [List.isEmpty]
        · rw [if_neg he]
          simp [List.isEmpty]
      · right
        rcases (em (u < 1240000000 ∨ u > 1320000000)) with he | he
        · rw [if_pos he]
          simp
        · rw [if_neg he]
          simp

/-- C8 witness: in-range raw values 1,280,000,000 / 370,000,000 convert
to 128 / 37, and the out-of-range raw longitude 2e9 is reported invalid
with the raw-longitude range error. -/
theorem coordinate_roundtrip_bounds_witness :
    (convertKATECToWGS84 (RawCoord.num 1280000000) (RawCoord.num 370000000) =
      (some (1280000000 / 10000000), some (370000000 / 10000000)) ∧
     124 ≤ (1280000000 : ℚ) / 10000000 ∧
     (1280000000 : ℚ) / 10000000 ≤ 132 ∧
     33 ≤ (370000000 : ℚ) / 10000000 ∧
     (370000000 : ℚ) / 10000000 ≤ 43) ∧
    (validateCoordinateConversion (RawCoord.num 2000000000)
        (RawCoord.num 370000000)).isValid = false := by
  have h := coordinate_roundtrip_bounds 1280000000 370000000
    (by norm_num) (by norm_num)
  exact ⟨h.1, (h.2 2000000000 370000000 (by norm_num)).1⟩

theorem digitChar_isDigit (m : Nat) (h : m < 10) :
    (digitChar m).isDigit = true := by
  interval_cases m <;> rfl

theorem digitVal_digitChar (m : Nat) (h : m < 10) :
    digitVal (digitChar m) = m := by
  interval_cases m <;> rfl

theorem isDigit_not_ws (c : Char) (h : c.isDigit = true) :
    jsWhitespace c = false := by
  have hn : ¬(c = ' ' ∨ c = '\t' ∨ c = '\n' ∨ c = '\r') := by
    rintro (rfl | rfl | rfl | rfl) <;> exact absurd h (by decide)
  unfold jsWhitespace
  exact decide_eq_false hn

theorem isDigit_ne_dash (c : Char) (h : c.isDigit = true) : ¬ c = '-' :=
  fun hc => absurd h (by rw [hc]; decide)

theorem isDigit_ne_plus (c : Char) (h : c.isDigit = true) : ¬ c = '+' :=
  fun hc => absurd h (by rw [hc]; decide)

theorem decDigitsAux_spec (fuel : Nat) : ∀ n, n ≤ fuel →
    decValue (decDigitsAux fuel n) = n := by
  induction fuel with
  | zero =>
    intro n h
    have h0 : n = 0 := by omega
    subst h0
    rfl
  | succ f ih =>
    intro n h
    by_cases h0 : n = 0
    · subst h0
      simp [decDigitsAux, decValue]
    · simp only [decDigitsAux, if_neg h0, decValue]
      have hd : n / 10 ≤ f := by
        have := Nat.div_lt_self (Nat.pos_of_ne_zero h0) (by norm_num : 1 < 10)
        omega
      rw [ih _ hd, digitVal_digitChar _ (Nat.mod_lt n (by norm_num))]
      omega

theorem decDigitsAux_digits (fuel : Nat) : ∀ n, ∀ c ∈ decDigitsAux fuel n,
    c.isDigit = true := by
  induction fuel with
  | zero =>
    intro n c hc
    simp [decDigitsAux] at hc
  | succ f ih =>
    intro n c hc
    by_cases h0 : n = 0
    · subst h0
      simp [decDigitsAux] at hc
    · simp only [decDigitsAux, if_neg h0, List.mem_cons] at hc
      rcases hc with rfl | hc
      · exact digitChar_isDigit _ (Nat.mod_lt n (by norm_num))
      · exact ih _ c hc

theorem decDigitsAux_ne_nil (fuel n : Nat) (h0 : n ≠ 0) (h : n ≤ fuel) :
    decDigitsAux fuel n ≠ [] := by
  cases fuel with
  | zero => omega
  | succ f => simp [decDigitsAux, if_neg h0]

theorem natToDec_digits (n : Nat) : ∀ c ∈ natToDec n, c.isDigit = true := by
  unfold natToDec
  split
  · intro c hc
    simp only [List.mem_singleton] at hc
    subst hc
    decide
  · intro c hc
    rw [List.mem_reverse] at hc
    exact decDigitsAux_digits n n c hc

theorem natToDec_ne_nil (n : Nat) : natToDec n ≠ [] := by
  unfold natToDec
  split
  · simp
  · rename_i h0
    simp only [ne_eq, List.reverse_eq_nil_iff]
    exact decDigitsAux_ne_nil n n h0 le_rfl

theorem foldr_decValue (l : List Char) :
    l.foldr (fun c acc => 10 * acc + digitVal c) 0 = decValue l := by
  induction l with
  | nil => rfl
  | cons c cs ih =>
    simp only [List.foldr_cons, decValue, ih]
    omega

theorem parseDigits_all (l : List Char) (hne : l ≠ [])
    (hd : ∀ c ∈ l, c.isDigit = true) :
    parseDigits l =
      some (l.foldl (fun acc c => 10 * acc + digitVal c) 0) := by
  unfold parseDigits
  rw [List.takeWhile_eq_self_iff.mpr hd, if_neg hne]

theorem parseDigits_natToDec (n : Nat) : parseDigits (natToDec n) = some n := by
  by_cases h0 : n = 0
  · subst h0
    rfl
  · rw [parseDigits_all _ (natToDec_ne_nil n) (natToDec_digits n)]
    congr 1
    conv_lhs => rw [natToDec, if_neg h0]
    rw [List.foldl_reverse, foldr_decValue]
    exact decDigitsAux_spec n n le_rfl

theorem jsParseInt_natToDec (n : Nat) :
    jsParseInt (natToDec n) = some (n : Int) := by
  obtain ⟨c, rest, hcr⟩ : ∃ c rest, natToDec n = c :: rest := by
    cases h : natToDec n with
    | nil => exact absurd h (natToDec_ne_nil n)
    | cons c r => exact ⟨c, r, rfl⟩
  have hdc : c.isDigit = true :=
    natToDec_digits n c (by rw [hcr]; exact List.mem_cons_self c rest)
  unfold jsParseInt
  rw [hcr, List.dropWhile_cons, isDigit_not_ws c hdc]
  simp only [Bool.false_eq_true, if_false]
  rw [if_neg (isDigit_ne_dash c hdc), if_neg (isDigit_ne_plus c hdc),
    ← hcr, parseDigits_natToDec]
  rfl

theorem jsIntToStr_nonneg (n : Int) (h : 0 ≤ n) :
    jsIntToStr n = natToDec n.toNat := by
  unfold jsIntToStr
  rw [if_neg (not_lt.mpr h)]

theorem jsParseInt_jsIntToStr (n : Int) (h : 0 ≤ n) :
    jsParseInt (jsIntToStr n) = some n := by
  rw [jsIntToStr_nonneg n h, jsParseInt_natToDec, Int.toNat_of_nonneg h]

theorem jsIntToStr_ne_nil (n : Int) : jsIntToStr n ≠ [] := by
  unfold jsIntToStr
  split
  · simp
  · exact natToDec_ne_nil _

theorem splitSep_no_sep (sep : Char) (s : List Char) (h : sep ∉ s) :
    splitSep sep s = [s] := by
  induction s with
  | nil => rfl
  | cons c cs ih =>
    simp only [List.mem_cons, not_or] at h
    obtain ⟨h1, h2⟩ := h
    unfold splitSep
    rw [if_neg (fun hc => h1 hc.symm), ih h2]

theorem splitSep_append (sep : Char) (s r : List Char) (h : sep ∉ s) :
    splitSep sep (s ++ sep :: r) = s :: splitSep sep r := by
  induction s with
  | nil =>
    simp [splitSep]
  | cons c cs ih =>
    simp only [List.mem_cons, not_or] at h
    obtain ⟨h1, h2⟩ := h
    simp only [List.cons_append, splitSep, List.append_eq]
    rw [if_neg (fun hc => h1 hc.symm), ih h2]

theorem splitSep_joinSep (sep : Char) (l : List (List Char)) (hne : l ≠ [])
    (hsep : ∀ s ∈ l, sep ∉ s) : splitSep sep (joinSep sep l) = l := by
  induction l with
  | nil => exact absurd rfl hne
  | cons s t ih =>
    cases t with
    | nil =>
      simp only [joinSep]
      exact splitSep_no_sep sep s (hsep s (List.mem_cons_self s []))
    | cons s2 t2 =>
      have hj : joinSep sep (s :: s2 :: t2) =
          s ++ sep :: joinSep sep (s2 :: t2) := rfl
      rw [hj, splitSep_append sep s _ (hsep s (List.mem_cons_self s (s2 :: t2))),
        ih (by simp) (fun x hx => hsep x (List.mem_cons_of_mem s hx))]

theorem joinSep_ne_nil (sep : Char) (l : List (List Char)) (hne : l ≠ [])
    (hne2 : l ≠ [[]]) : joinSep sep l ≠ [] := by
  match l with
  | [] => exact absurd rfl hne
  | [s] =>
    have hs : s ≠ [] := fun h0 => hne2 (by rw [h0])
    simpa [joinSep] using hs
  | s :: s2 :: t2 =>
    simp [joinSep]

/-- C5 counterexample: for the all-non-default state whose
`contentTypeId` is the bare string `"12"`, parsing the serialized query
does not deep-equal the original state — parse always returns the
category filter in array form (`["12"]`), so the bare-string shape never
round-trips. -/
theorem filterCodec_roundtrip_counterexample :
    parseFilterParams (buildFilterQuery cexFilterState) ≠ cexFilterState := by
  decide

/-- C5 amended: for every filter state whose fields all hold well-formed
non-default values — non-empty keyword, area code and pet size, the
category filter in array form with a non-empty list of comma-free ids
that is not the single empty id, pet-friendly `true`, sort `"name"` and
an integer page greater than 1 — parsing the serialized query
deep-equals the original state; and at the all-defaults state the
serialized query string is empty. -/
theorem filterCodec_roundtrip (k a ps : List Char) (ids : List (List Char))
    (n : Int) (hk : k ≠ []) (ha : a ≠ []) (hps : ps ≠ [])
    (hne : ids ≠ []) (hne2 : ids ≠ [[]])
    (hsep : ∀ s ∈ ids, (',' : Char) ∉ s) (hn : 1 < n) :
    parseFilterParams (buildFilterQuery
      ⟨some k, some a, some (StrOrList.list ids), some true, some ps,
        some (strL "name"), some n⟩) =
      ⟨some k, some a, some (StrOrList.list ids), some true, some ps,
        some (strL "name"), some n⟩ ∧
    buildFilterQueryString
      ⟨none, none, none, none, none, some (strL "latest"), some 1⟩ = [] := by
  constructor
  · have hn0 : (0 : Int) ≤ n := by omega
    have hjoin : joinSep ',' ids ≠ [] := joinSep_ne_nil ',' ids hne hne2
    have hsplit := splitSep_joinSep ',' ids hne hsep
    have hpage := jsParseInt_jsIntToStr n hn0
    have hstr : jsIntToStr n ≠ [] := jsIntToStr_ne_nil n
    have hname1 : strL "name" ≠ [] := by decide
    have hname2 : strL "name" ≠ strL "latest" := by decide
    simp only [buildFilterQuery, parseFilterParams]
    simp [hk, ha, hps, hjoin, hsplit, hpage, hstr, hname1, hname2, hn,
      max_eq_right (le_of_lt hn)]
  · rfl

/-- C5 witness: a concrete all-non-default state with the category
filter `["12", "14"]` round-trips, and the all-defaults state
serializes to the empty query string. -/
theorem filterCodec_roundtrip_witness :
    parseFilterParams (buildFilterQuery
      ⟨some (strL "beach"), some (strL "1"),
        some (StrOrList.list [strL "12", strL "14"]), some true,
        some (strL "small"), some (strL "name"), some 2⟩) =
      ⟨some (strL "beach"), some (strL "1"),
        some (StrOrList.list [strL "12", strL "14"]), some true,
        some (strL "small"), some (strL "name"), some 2⟩ ∧
    buildFilterQueryString
      ⟨none, none, none, none, none, some (strL "latest"), some 1⟩ = [] :=
  filterCodec_roundtrip (strL "beach") (strL "1") (strL "small")
    [strL "12", strL "14"] 2 (by decide) (by decide) (by decide) (by decide)
    (by decide) (by decide) (by decide)

/-! ## Claim C9: codec default handling -/

/-- C9 counterexample: on a query with no `page` parameter,
`parseFilterParams` leaves `page` absent (`undefined`) instead of
filling in the default 1 — the default-filling on parse holds for
`sort` but not for `page`. -/
theorem parseFilterParams_no_page_default :
    (parseFilterParams ⟨none, none, none, none, none, none, none⟩).page ≠
      some 1 ∧
    (parseFilterParams ⟨none, none, none, none, none, none, none⟩).page =
      none := by
  decide

/-- C9 amended: `buildFilterQuery` never writes the default values
(`sort=latest`, `page=1`) into the query; `parseFilterParams` fills the
`sort` default in when the parameter is absent, but leaves an absent
`page` absent; and a present numeric `page` parameter parsing below 1 is
clamped to 1 on parse. -/
theorem filterCodec_default_handling (p : FilterParams)
    (q : SearchParamsObj) :
    (buildFilterQuery p).sort ≠ some (strL "latest") ∧
    (∀ s, (buildFilterQuery p).page = some s → s ≠ strL "1") ∧
    (q.sort = none → (parseFilterParams q).sort = some (strL "latest")) ∧
    (q.page = none → (parseFilterParams q).page = none) ∧
    (∀ s n, q.page = some s → s ≠ [] → jsParseInt s = some n → n < 1 →
      (parseFilterParams q).page = some 1) := by
  refine ⟨?_, ?_, ?_, ?_, ?_⟩
  · rcases hp : p.sort with _ | s
    · simp [buildFilterQuery, hp]
    · by_cases h1 : s = []
      · simp [buildFilterQuery, hp, h1]
      · by_cases h2 : s = strL "latest"
        · simp [buildFilterQuery, hp, h1, h2]
        · simp [buildFilterQuery, hp, h1, h2]
  · intro s hs
    rcases hp : p.page with _ | n0
    · simp [buildFilterQuery, hp] at hs
    · by_cases h1 : 1 < n0
      · simp only [buildFilterQuery, hp] at hs
        rw [if_pos h1] at hs
        injection hs with hs2
        intro hcontra
        have hparse := jsParseInt_jsIntToStr n0 (by omega : (0 : Int) ≤ n0)
        rw [hs2, hcontra] at hparse
        have hone : jsParseInt (strL "1") = some 1 := by decide
        rw [hone] at hparse
        injection hparse with hp1
        omega
      · simp only [buildFilterQuery, hp] at hs
        rw [if_neg h1] at hs
        cases hs
  · intro hq
    simp [parseFilterParams, hq]
  · intro hq
    simp [parseFilterParams, hq]
  · intro s n hq hs hparse hn
    simp only [parseFilterParams, hq]
    rw [if_neg hs, hparse]
    have hmax : (1 : Int) ⊔ n = 1 := max_eq_left (by omega)
    simp [hmax]

/-- C9 witness: the page parameter `"0"` parses to the clamped page 1,
and an absent sort parameter parses to the default `"latest"`. -/
theorem filterCodec_default_handling_witness :
    (parseFilterParams
      ⟨none, none, none, none, none, none, some (strL "0")⟩).page =
        some 1 ∧
    (parseFilterParams
      ⟨none, none, none, none, none, none, none⟩).sort =
        some (strL "latest") := by
  have h := filterCodec_default_handling
    ⟨none, none, none, none, none, none, none⟩
    ⟨none, none, none, none, none, none, some (strL "0")⟩
  have h2 := filterCodec_default_handling
    ⟨none, none, none, none, none, none, none⟩
    ⟨none, none, none, none, none, none, none⟩
  exact ⟨h.2.2.2.2 (strL "0") 0 rfl (by decide) (by decide) (by decide),
    h2.2.2.1 rfl⟩

